import Mathlib

/-!
# Verification of `req_uninstaller.py`

A shallow embedding of the pip package uninstaller GUI tool
(`src/Info/req_uninstaller.py`) and proofs of its specified properties.

The heart of the program is `UninstallThread.run`, which
1. runs `pip list --format=freeze` (fallible subprocess),
2. parses its stdout into package names, skipping `pip`, `setuptools`, `wheel`,
3. runs `pip uninstall -y <name>` per package, accumulating failures,
4. emits Qt signals: `output_signal(str)`, `progress_signal(int,int)`,
   `finished_signal(bool,str)`, here modelled as an ordered event list.

Python string primitives (`str.strip`, `str.split`, `str.lower`, `in`) are
modelled over `List Char`, faithful to their Python semantics on the
character sets this program encounters.
-/

/-- Models Python `str.isspace` for the ASCII whitespace characters that
`str.strip` (argument-less) removes. -/
def pyIsSpace (c : Char) : Bool :=
  c = ' ' || c = '\t' || c = '\n' || c = '\r' || c = '\x0b' || c = '\x0c'

/-- Models Python `str.strip()`: drop leading and trailing whitespace. -/
def pyStrip (s : List Char) : List Char :=
  ((s.dropWhile pyIsSpace).reverse.dropWhile pyIsSpace).reverse

/-- Models Python `line.split('==')`: split at each leftmost non-overlapping
occurrence of the two-character separator `==`. -/
def splitEq : List Char → List (List Char)
  | [] => [[]]
  | '=' :: '=' :: rest => [] :: splitEq rest
  | c :: rest =>
    match splitEq rest with
    | [] => [[c]]
    | t :: ts => (c :: t) :: ts

/-- Models Python `s.split('\n')`: split at each newline character. -/
def splitNl : List Char → List (List Char)
  | [] => [[]]
  | '\n' :: rest => [] :: splitNl rest
  | c :: rest =>
    match splitNl rest with
    | [] => [[c]]
    | t :: ts => (c :: t) :: ts

/-- Models Python `sub in s` for a general needle: contiguous substring test. -/
def containsSub (sub : List Char) : List Char → Bool
  | [] => sub.isEmpty
  | c :: rest => sub.isPrefixOf (c :: rest) || containsSub sub rest

/-- Models Python `'==' in line`: does `==` occur as a contiguous substring? -/
def hasEqEq (l : List Char) : Bool := containsSub ['=', '='] l

/-- Models Python `str.lower` on the ASCII range (all this program compares). -/
def pyLowerChar (c : Char) : Char :=
  if 'A' ≤ c ∧ c ≤ 'Z' then Char.ofNat (c.toNat + 32) else c

/-- Models Python `str.lower` applied characterwise. -/
def pyLower (s : String) : String := ⟨s.data.map pyLowerChar⟩

/-- The result of a completed subprocess: `subprocess.run(..., capture_output=True)`. -/
structure CmdResult where
  returncode : Int
  stdout : String
  stderr : String
deriving DecidableEq

/-- A subprocess invocation either raises a Python exception (modelled as its
`str(e)` message) or returns a `CmdResult`. -/
abbrev CmdOutcome := Except String CmdResult

/-- The external world seen by one run of the thread: the outcome of the
`pip list --format=freeze` call and, per package name, the outcome of
`pip uninstall -y <name>`. -/
structure Env where
  listCmd : CmdOutcome
  uninstallCmd : String → CmdOutcome

/-- One Qt signal emission of `UninstallThread`:
`output_signal`, `progress_signal` or `finished_signal`. -/
inductive TaskEvent where
  | outputLine (text : String)
  | progress (current total : Nat)
  | completed (success : Bool) (message : String)
deriving DecidableEq

/-- Is this event a terminal `finished_signal` emission? -/
def isCompleted : TaskEvent → Bool
  | .completed _ _ => true
  | _ => false

/-- Is this event an `output_signal` emission? -/
def isOutputLine : TaskEvent → Bool
  | .outputLine _ => true
  | _ => false

/-- The hard-coded critical packages skipped by the parser:
`['pip', 'setuptools', 'wheel']`. -/
def protectedNames : List String := ["pip", "setuptools", "wheel"]

/-- One iteration of the parsing loop body, for one line of listing output:
`if line and '==' in line: pkg_name = line.split('==')[0];
if pkg_name.lower() not in ['pip','setuptools','wheel']: packages.append(pkg_name)`. -/
def parseLine (line : String) : Option String :=
  if line.data ≠ [] ∧ hasEqEq line.data then
    let pkg : String := ⟨(splitEq line.data).headD []⟩
    if protectedNames.contains (pyLower pkg) then none else some pkg
  else none

/-- The whole parse-and-filter step of `UninstallThread.run`:
`for line in result.stdout.strip().split('\n'): ...`. -/
def parsePackages (stdout : String) : List String :=
  ((splitNl (pyStrip stdout.data)).map (fun l => (⟨l⟩ : String))).filterMap parseLine

/-- `"-" * 60`, the horizontal rule the thread prints around the loop. -/
def dashLine : String := ⟨List.replicate 60 '-'⟩

/-- The text of the per-item starting line
`f"[{i}/{total_packages}] Uninstalling {pkg_name}..."`. -/
def itemHeader (i total : Nat) (pkg : String) : String :=
  "[" ++ toString i ++ "/" ++ toString total ++ "] Uninstalling " ++ pkg ++ "..."

/-- The two emissions made before the listing subprocess call:
`output_signal("Fetching list of installed packages...\n")` and
`progress_signal(0, 0)` (indeterminate). -/
def listingBanner : List TaskEvent :=
  [.outputLine "Fetching list of installed packages...\n", .progress 0 0]

/-- The four emissions made between parsing and the removal loop. -/
def headerEvents (packages : List String) : List TaskEvent :=
  [.outputLine ("Found " ++ toString packages.length ++ " packages to uninstall\n"),
   .outputLine ("Packages: " ++ String.intercalate ", " packages ++ "\n\n"),
   .outputLine "Uninstalling packages...\n",
   .outputLine (dashLine ++ "\n")]

/-- The `for i, pkg_name in enumerate(packages, 1)` loop of
`UninstallThread.run`. Returns the events emitted, the package names for
which an uninstall subprocess was actually invoked, and either the raised
exception message or the accumulated `failed_packages` list. -/
def uninstallLoop (env : Env) (total : Nat) :
    Nat → List String → List TaskEvent × List String × Except String (List String)
  | _, [] => ([], [], .ok [])
  | i, pkg :: rest =>
    let hd : List TaskEvent := [.progress i total, .outputLine (itemHeader i total pkg)]
    match env.uninstallCmd pkg with
    | .error e => (hd, [pkg], .error e)
    | .ok u =>
      if u.returncode = 0 then
        let r := uninstallLoop env total (i + 1) rest
        (hd ++ [.outputLine " ✓ Success\n"] ++ r.1, pkg :: r.2.1, r.2.2)
      else
        let failEvs : List TaskEvent :=
          .outputLine " ✗ Failed\n" ::
            (if u.stderr ≠ "" then [.outputLine ("   Error: " ++ u.stderr ++ "\n")] else [])
        let r := uninstallLoop env total (i + 1) rest
        (hd ++ failEvs ++ r.1, pkg :: r.2.1,
         match r.2.2 with
         | .error e => .error e
         | .ok failed => .ok (pkg :: failed))

/-- The closing emissions after the loop: the horizontal rule, then either the
success completion or the failure enumeration and failure completion. -/
def closingEvents (total : Nat) (failed : List String) : List TaskEvent :=
  .outputLine ("\n" ++ dashLine ++ "\n") ::
    (if failed = [] then
      [.completed true ("Successfully uninstalled " ++ toString total ++ " packages!")]
    else
      .outputLine ("\n⚠ Failed to uninstall " ++ toString failed.length ++ " packages:\n") ::
        failed.map (fun p => TaskEvent.outputLine ("  - " ++ p ++ "\n"))
        ++ [.completed false ("Failed to uninstall " ++ toString failed.length ++ " packages")])

namespace UninstallThread

/-- `UninstallThread.run` in full: the ordered event (signal) trace, the
package names passed to an uninstall subprocess and the final
`failed_packages` list ( `[]` on every early return). The outer
`try/except` turns any subprocess exception into
`finished_signal(False, f"Error: {e}")` after the events already emitted. -/
def runFull (env : Env) : List TaskEvent × List String × List String :=
  match env.listCmd with
  | .error e => (listingBanner ++ [.completed false ("Error: " ++ e)], [], [])
  | .ok result =>
    if result.returncode ≠ 0 then
      (listingBanner ++ [.completed false "Failed to get package list"], [], [])
    else
      let packages := parsePackages result.stdout
      if packages = [] then
        (listingBanner ++ [.completed true "No packages to uninstall"], [], [])
      else
        match uninstallLoop env packages.length 1 packages with
        | (evs, issued, .error e) =>
          (listingBanner ++ headerEvents packages ++ evs
            ++ [.completed false ("Error: " ++ e)], issued, [])
        | (evs, issued, .ok failed) =>
          (listingBanner ++ headerEvents packages ++ evs
            ++ closingEvents packages.length failed, issued, failed)

/-- The event trace of one `UninstallThread.run` invocation. -/
def run (env : Env) : List TaskEvent := (runFull env).1

/-- The package names for which `run` invoked `pip uninstall -y <name>`. -/
def issuedPackages (env : Env) : List String := (runFull env).2.1

/-- The final `failed_packages` list of a `run` invocation. -/
def failedPackages (env : Env) : List String := (runFull env).2.2

end UninstallThread

/-- Does the uninstall command for `p` complete with a non-zero exit code,
or fault? (The failure condition recorded by the loop for issued items.) -/
def uninstallFails (env : Env) (p : String) : Bool :=
  match env.uninstallCmd p with
  | .ok u => u.returncode ≠ 0
  | .error _ => true

/-- The block of events one loop iteration emits for the pair
(1-based index, package name), when the uninstall subprocess completes:
the determinate progress update and the starting line first, then the
success line, or the failure line followed by captured stderr if any. -/
def itemEvents (env : Env) (total : Nat) (x : Nat × String) : List TaskEvent :=
  [.progress x.1 total, .outputLine (itemHeader x.1 total x.2)] ++
    match env.uninstallCmd x.2 with
    | .error _ => []
    | .ok u =>
      if u.returncode = 0 then [.outputLine " ✓ Success\n"]
      else .outputLine " ✗ Failed\n" ::
        (if u.stderr ≠ "" then [.outputLine ("   Error: " ++ u.stderr ++ "\n")] else [])

/-- A concrete world where the listing command exits with code 1. -/
def envListExitNonzero : Env where
  listCmd := Except.ok { returncode := 1, stdout := "", stderr := "boom" }
  uninstallCmd := fun _ => Except.ok { returncode := 0, stdout := "", stderr := "" }

/-- A concrete world where the listing command succeeds with empty output. -/
def envEmptyListing : Env where
  listCmd := Except.ok { returncode := 0, stdout := "", stderr := "" }
  uninstallCmd := fun _ => Except.ok { returncode := 0, stdout := "", stderr := "" }

/-- A concrete world with a single package `foo` whose uninstall fails. -/
def envSingleFailure : Env where
  listCmd := Except.ok { returncode := 0, stdout := "foo==1.0", stderr := "" }
  uninstallCmd := fun _ => Except.ok { returncode := 1, stdout := "", stderr := "boom" }

/-- A concrete world with packages `foo` and `bar` where only `bar`'s
uninstall exits non-zero, with captured stderr text. -/
def envTwoPackages : Env where
  listCmd := Except.ok { returncode := 0, stdout := "foo==1.0\nbar==2.1\npip==23.0", stderr := "" }
  uninstallCmd := fun p =>
    Except.ok { returncode := if p = "bar" then 1 else 0, stdout := ""
                stderr := if p = "bar" then "nope" else "" }

namespace PackageUninstallerGUI

/-- The mutable GUI state touched by the uninstall flow of
`PackageUninstallerGUI`: the log text, the enabled state of the three
buttons, the progress bar, and a counter of background runs started
(each `UninstallThread().start()` increments it). -/
structure GuiState where
  outputText : String
  uninstallEnabled : Bool
  infoEnabled : Bool
  clearEnabled : Bool
  progressVisible : Bool
  progressMax : Nat
  progressValue : Nat
  runsStarted : Nat
deriving DecidableEq

/-- The user's answer to the `QMessageBox.question` confirmation dialog. -/
inductive Reply where
  | yes
  | no
deriving DecidableEq

/-- `PackageUninstallerGUI.start_uninstall`: clear the log, disable the
buttons, show the progress bar in indeterminate mode, start the thread. -/
def start_uninstall (s : GuiState) : GuiState :=
  { s with
    outputText := ""
    uninstallEnabled := false
    infoEnabled := false
    clearEnabled := false
    progressVisible := true
    progressMax := 0
    progressValue := 0
    runsStarted := s.runsStarted + 1 }

/-- `PackageUninstallerGUI.confirm_uninstall`: show the dialog; only on
`Yes` call `start_uninstall`, otherwise fall through doing nothing. -/
def confirm_uninstall (s : GuiState) (reply : Reply) : GuiState :=
  if reply = Reply.yes then start_uninstall s else s

end PackageUninstallerGUI

/-! ## Lemmas about the string primitives -/

theorem splitEq_ne_nil (l : List Char) : splitEq l ≠ [] := by
  induction l using splitEq.induct with
  | case1 => simp [splitEq]
  | case2 rest ih => simp [splitEq]
  | case3 c rest hne hrest ih => exact absurd hrest ih
  | case4 c rest hne t ts heq ih => simp [splitEq, heq]

theorem containsSub_cons (sub : List Char) (c : Char) (rest : List Char) :
    containsSub sub (c :: rest) = (sub.isPrefixOf (c :: rest) || containsSub sub rest) := rfl

theorem eqeq_isPrefixOf_iff (c : Char) (rest : List Char) :
    List.isPrefixOf ['=', '='] (c :: rest) = true ↔ c = '=' ∧ ∃ r, rest = '=' :: r := by
  cases rest with
  | nil =>
    simp [List.isPrefixOf]
  | cons d r =>
    simp only [List.isPrefixOf, Bool.and_eq_true, beq_iff_eq]
    constructor
    · rintro ⟨hc, hd, _⟩
      exact ⟨hc.symm, r, by rw [hd]⟩
    · rintro ⟨hc, r2, hr2⟩
      cases hr2
      exact ⟨hc.symm, rfl, trivial⟩

theorem splitEq_head_decomp (l : List Char) (h : hasEqEq l = true) :
    ∃ rest, l = (splitEq l).headD [] ++ '=' :: '=' :: rest ∧
      hasEqEq ((splitEq l).headD []) = false := by
  induction l using splitEq.induct with
  | case1 => simp [hasEqEq, containsSub] at h
  | case2 rest ih =>
    exact ⟨rest, by simp [splitEq], by simp [splitEq, hasEqEq, containsSub]⟩
  | case3 c rest hne hrest ih => exact absurd hrest (splitEq_ne_nil rest)
  | case4 c rest hne t ts heq ih =>
    have hsplit : splitEq (c :: rest) = (c :: t) :: ts := by simp [splitEq, heq]
    have hpre : List.isPrefixOf ['=', '='] (c :: rest) = false := by
      rw [Bool.eq_false_iff]
      intro hx
      obtain ⟨hc, r, hr⟩ := (eqeq_isPrefixOf_iff c rest).mp hx
      exact hne r hc hr
    have h' : hasEqEq rest = true := by
      rw [hasEqEq, containsSub_cons, hpre] at h
      simpa [hasEqEq] using h
    obtain ⟨r', hdec, hfree⟩ := ih h'
    rw [heq] at hdec hfree
    simp only [List.headD_cons] at hdec hfree
    refine ⟨r', ?_, ?_⟩
    · rw [hsplit]
      simp only [List.headD_cons, List.cons_append]
      rw [← hdec]
    · rw [hsplit]
      simp only [List.headD_cons]
      rw [hasEqEq, containsSub_cons]
      have hpre2 : List.isPrefixOf ['=', '='] (c :: t) = false := by
        rw [Bool.eq_false_iff]
        intro hx
        obtain ⟨hc, r2, hr2⟩ := (eqeq_isPrefixOf_iff c t).mp hx
        exact hne (r2 ++ '=' :: '=' :: r') hc (by rw [hdec, hr2]; rfl)
      rw [hpre2]
      simpa [hasEqEq] using hfree

/-! ## Lemmas about the parse-and-filter step -/

theorem parseLine_eq_some (line p : String) (h : parseLine line = some p) :
    line.data ≠ [] ∧ hasEqEq line.data = true ∧
      p = (⟨(splitEq line.data).headD []⟩ : String) ∧
      protectedNames.contains (pyLower p) = false := by
  unfold parseLine at h
  by_cases h1 : line.data ≠ [] ∧ hasEqEq line.data = true
  · rw [if_pos] at h
    · by_cases h2 : protectedNames.contains (pyLower (⟨(splitEq line.data).headD []⟩ : String)) = true
      · rw [if_pos h2] at h
        exact absurd h (by simp)
      · rw [if_neg h2] at h
        obtain rfl := Option.some.inj h
        exact ⟨h1.1, h1.2, rfl, by simpa using h2⟩
    · exact ⟨h1.1, by simpa using h1.2⟩
  · rw [if_neg] at h
    · exact absurd h (by simp)
    · intro hx
      exact h1 ⟨hx.1, by simpa using hx.2⟩

theorem mem_parsePackages_not_protected (stdout p : String)
    (hp : p ∈ parsePackages stdout) :
    protectedNames.contains (pyLower p) = false := by
  unfold parsePackages at hp
  rw [List.mem_filterMap] at hp
  obtain ⟨line, _, hline⟩ := hp
  exact (parseLine_eq_some _ _ hline).2.2.2

theorem not_protected_of_contains_false (p q : String)
    (hc : protectedNames.contains (pyLower p) = false) (hq : q ∈ protectedNames) :
    pyLower p ≠ pyLower q := by
  intro hpq
  fin_cases hq <;> simp_all [protectedNames, pyLower, pyLowerChar]

/-! ## Lemmas about the removal loop and the run -/

theorem uninstallLoop_issued_subset (env : Env) (total i : Nat) (pkgs : List String) :
    (uninstallLoop env total i pkgs).2.1 ⊆ pkgs := by
  induction pkgs generalizing i with
  | nil => simp [uninstallLoop]
  | cons pkg rest ih =>
    intro x hx
    cases hu : env.uninstallCmd pkg with
    | error e =>
      simp [uninstallLoop, hu] at hx
      simp [hx]
    | ok u =>
      by_cases hrc : u.returncode = 0
      · simp [uninstallLoop, hu, hrc] at hx
        rcases hx with hx | hx
        · simp [hx]
        · exact List.mem_cons_of_mem _ (ih (i + 1) hx)
      · simp [uninstallLoop, hu, hrc] at hx
        rcases hx with hx | hx
        · simp [hx]
        · exact List.mem_cons_of_mem _ (ih (i + 1) hx)

namespace UninstallThread

theorem runFull_listError (env : Env) (e : String) (h : env.listCmd = .error e) :
    runFull env = (listingBanner ++ [.completed false ("Error: " ++ e)], [], []) := by
  unfold runFull
  rw [h]

theorem runFull_listFail (env : Env) (r : CmdResult) (h : env.listCmd = .ok r)
    (hrc : r.returncode ≠ 0) :
    runFull env = (listingBanner ++ [.completed false "Failed to get package list"], [], []) := by
  unfold runFull
  rw [h]
  simp [hrc]

theorem runFull_empty (env : Env) (r : CmdResult) (h : env.listCmd = .ok r)
    (hrc : r.returncode = 0) (hpk : parsePackages r.stdout = []) :
    runFull env = (listingBanner ++ [.completed true "No packages to uninstall"], [], []) := by
  unfold runFull
  rw [h]
  simp [hrc, hpk]

theorem runFull_loopError (env : Env) (r : CmdResult) (h : env.listCmd = .ok r)
    (hrc : r.returncode = 0) (hpk : parsePackages r.stdout ≠ [])
    (evs : List TaskEvent) (issued : List String) (e : String)
    (hloop : uninstallLoop env (parsePackages r.stdout).length 1 (parsePackages r.stdout)
      = (evs, issued, .error e)) :
    runFull env = (listingBanner ++ headerEvents (parsePackages r.stdout) ++ evs
      ++ [.completed false ("Error: " ++ e)], issued, []) := by
  unfold runFull
  rw [h]
  simp [hrc, hpk, hloop]

theorem runFull_loopOk (env : Env) (r : CmdResult) (h : env.listCmd = .ok r)
    (hrc : r.returncode = 0) (hpk : parsePackages r.stdout ≠ [])
    (evs : List TaskEvent) (issued failed : List String)
    (hloop : uninstallLoop env (parsePackages r.stdout).length 1 (parsePackages r.stdout)
      = (evs, issued, .ok failed)) :
    runFull env = (listingBanner ++ headerEvents (parsePackages r.stdout) ++ evs
      ++ closingEvents (parsePackages r.stdout).length failed, issued, failed) := by
  unfold runFull
  rw [h]
  simp [hrc, hpk, hloop]

end UninstallThread

theorem mem_issued_not_protected (env : Env) (p : String)
    (hp : p ∈ UninstallThread.issuedPackages env) :
    protectedNames.contains (pyLower p) = false := by
  unfold UninstallThread.issuedPackages at hp
  cases hl : env.listCmd with
  | error e => rw [UninstallThread.runFull_listError env e hl] at hp; simp at hp
  | ok r =>
    by_cases hrc : r.returncode = 0
    · by_cases hpk : parsePackages r.stdout = []
      · rw [UninstallThread.runFull_empty env r hl hrc hpk] at hp; simp at hp
      · rcases hloop : uninstallLoop env (parsePackages r.stdout).length 1 (parsePackages r.stdout)
          with ⟨evs, issued, res⟩
        have hsub := uninstallLoop_issued_subset env (parsePackages r.stdout).length 1
          (parsePackages r.stdout)
        rw [hloop] at hsub
        cases res with
        | error e =>
          rw [UninstallThread.runFull_loopError env r hl hrc hpk evs issued e hloop] at hp
          exact mem_parsePackages_not_protected _ _ (hsub hp)
        | ok failed =>
          rw [UninstallThread.runFull_loopOk env r hl hrc hpk evs issued failed hloop] at hp
          exact mem_parsePackages_not_protected _ _ (hsub hp)
    · rw [UninstallThread.runFull_listFail env r hl hrc] at hp; simp at hp

theorem uninstallLoop_all_not_completed (env : Env) (total i : Nat) (pkgs : List String) :
    (uninstallLoop env total i pkgs).1.all (fun e => !(isCompleted e)) = true := by
  induction pkgs generalizing i with
  | nil => simp [uninstallLoop]
  | cons pkg rest ih =>
    have ih' : ∀ x ∈ (uninstallLoop env total (i + 1) rest).1, isCompleted x = false := by
      intro x hx
      have h := ih (i + 1)
      simp only [List.all_eq_true, Bool.not_eq_true'] at h
      exact h x hx
    cases hu : env.uninstallCmd pkg with
    | error ex => simp [uninstallLoop, hu, isCompleted]
    | ok u =>
      by_cases hrc : u.returncode = 0
      · simp [uninstallLoop, hu, hrc, isCompleted]
        exact ih'
      · by_cases hse : u.stderr = "" <;>
          (simp [uninstallLoop, hu, hrc, hse, isCompleted]; exact ih')

theorem uninstallLoop_not_completed (env : Env) (total i : Nat) (pkgs : List String) :
    ∀ e ∈ (uninstallLoop env total i pkgs).1, isCompleted e = false := by
  have h := uninstallLoop_all_not_completed env total i pkgs
  simp only [List.all_eq_true, Bool.not_eq_true'] at h
  exact h

theorem listingBanner_not_completed : ∀ e ∈ listingBanner, isCompleted e = false := by
  decide

theorem headerEvents_not_completed (pkgs : List String) :
    ∀ e ∈ headerEvents pkgs, isCompleted e = false := by
  intro e he
  simp [headerEvents] at he
  rcases he with he | he | he | he <;> simp [he, isCompleted]

/-- C2: every invocation of `UninstallThread.run` emits exactly one
`finished_signal` (Completed) event, and it is the last event of the run,
whichever branch the run takes (listing exception, non-zero listing exit,
empty package list, per-item removals, or an uninstall exception). -/
theorem run_exactly_one_completed (env : Env) :
    ∃ pre b m, UninstallThread.run env = pre ++ [TaskEvent.completed b m] ∧
      ∀ e ∈ pre, isCompleted e = false := by
  unfold UninstallThread.run
  cases hl : env.listCmd with
  | error ex =>
    refine ⟨listingBanner, false, "Error: " ++ ex, ?_, listingBanner_not_completed⟩
    rw [UninstallThread.runFull_listError env ex hl]
  | ok r =>
    by_cases hrc : r.returncode = 0
    · by_cases hpk : parsePackages r.stdout = []
      · refine ⟨listingBanner, true, "No packages to uninstall", ?_, listingBanner_not_completed⟩
        rw [UninstallThread.runFull_empty env r hl hrc hpk]
      · rcases hloop : uninstallLoop env (parsePackages r.stdout).length 1 (parsePackages r.stdout)
          with ⟨evs, issued, res⟩
        have hevs := uninstallLoop_not_completed env (parsePackages r.stdout).length 1
          (parsePackages r.stdout)
        rw [hloop] at hevs
        cases res with
        | error ex =>
          refine ⟨listingBanner ++ headerEvents (parsePackages r.stdout) ++ evs,
            false, "Error: " ++ ex, ?_, ?_⟩
          · rw [UninstallThread.runFull_loopError env r hl hrc hpk evs issued ex hloop]
          · intro e he
            simp only [List.mem_append] at he
            rcases he with (he | he) | he
            · exact listingBanner_not_completed e he
            · exact headerEvents_not_completed _ e he
            · exact hevs e he
        | ok failed =>
          rw [UninstallThread.runFull_loopOk env r hl hrc hpk evs issued failed hloop]
          by_cases hf : failed = []
          · refine ⟨listingBanner ++ headerEvents (parsePackages r.stdout) ++ evs
              ++ [.outputLine ("\n" ++ dashLine ++ "\n")], true,
              "Successfully uninstalled " ++ toString (parsePackages r.stdout).length
                ++ " packages!", ?_, ?_⟩
            · simp [closingEvents, hf]
            · intro e he
              simp only [List.mem_append] at he
              rcases he with ((he | he) | he) | he
              · exact listingBanner_not_completed e he
              · exact headerEvents_not_completed _ e he
              · exact hevs e he
              · simp at he
                simp [he, isCompleted]
          · refine ⟨listingBanner ++ headerEvents (parsePackages r.stdout) ++ evs
              ++ [.outputLine ("\n" ++ dashLine ++ "\n"),
                  .outputLine ("\n⚠ Failed to uninstall " ++ toString failed.length
                    ++ " packages:\n")]
              ++ failed.map (fun p => TaskEvent.outputLine ("  - " ++ p ++ "\n")), false,
              "Failed to uninstall " ++ toString failed.length ++ " packages", ?_, ?_⟩
            · simp [closingEvents, hf]
            · intro e he
              simp only [List.mem_append] at he
              rcases he with (((he | he) | he) | he) | he
              · exact listingBanner_not_completed e he
              · exact headerEvents_not_completed _ e he
              · exact hevs e he
              · simp at he
                rcases he with he | he <;> simp [he, isCompleted]
              · simp only [List.mem_map] at he
                obtain ⟨p, _, hp⟩ := he
                simp [← hp, isCompleted]
    · refine ⟨listingBanner, false, "Failed to get package list", ?_, listingBanner_not_completed⟩
      rw [UninstallThread.runFull_listFail env r hl hrc]

/-- C1: no identifier produced by the parse-and-filter step, and hence none
passed to the uninstall subprocess, is case-insensitively equal to a member
of the protected set `pip`, `setuptools`, `wheel`. -/
theorem protected_never_uninstalled :
    (∀ stdout p, p ∈ parsePackages stdout →
      ∀ q ∈ protectedNames, pyLower p ≠ pyLower q) ∧
    (∀ env p, p ∈ UninstallThread.issuedPackages env →
      ∀ q ∈ protectedNames, pyLower p ≠ pyLower q) := by
  constructor
  · intro stdout p hp q hq
    exact not_protected_of_contains_false p q (mem_parsePackages_not_protected stdout p hp) hq
  · intro env p hp q hq
    exact not_protected_of_contains_false p q (mem_issued_not_protected env p hp) hq

theorem protected_never_uninstalled_witness :
    pyLower "foo" ≠ pyLower "pip" :=
  protected_never_uninstalled.1 "foo==1.0\npip==23.0" "foo" (by decide) "pip" (by decide)

theorem uninstallLoop_ok (env : Env) (total : Nat) (pkgs : List String) (i : Nat)
    (hok : ∀ p ∈ pkgs, ∃ u, env.uninstallCmd p = .ok u) :
    uninstallLoop env total i pkgs =
      ((pkgs.enumFrom i).flatMap (itemEvents env total), pkgs,
        .ok (pkgs.filter (fun p => uninstallFails env p))) := by
  induction pkgs generalizing i with
  | nil => simp [uninstallLoop]
  | cons pkg rest ih =>
    obtain ⟨u, hu⟩ := hok pkg (by simp)
    have ih' := ih (i + 1) (fun p hp => hok p (by simp [hp]))
    by_cases hrc : u.returncode = 0
    · simp [uninstallLoop, hu, hrc, ih', itemEvents, uninstallFails, List.filter_cons]
    · by_cases hse : u.stderr = "" <;>
        simp [uninstallLoop, hu, hrc, hse, ih', itemEvents, uninstallFails, List.filter_cons]

/-- C3: a listing line is parsed into an entry only if it contains the
name/version separator `==`, and the resulting identifier is a leading
piece of the line followed by the separator; the scenario listing
`["foo==1.0", "bar==2.1", "pip==23.0"]` yields exactly `["foo", "bar"]`. -/
theorem parse_requires_separator :
    (∀ line p, parseLine line = some p →
      hasEqEq line.data = true ∧ ∃ rest, line.data = p.data ++ '=' :: '=' :: rest) ∧
    parsePackages "foo==1.0\nbar==2.1\npip==23.0" = ["foo", "bar"] := by
  constructor
  · intro line p h
    obtain ⟨-, hsep, hp, -⟩ := parseLine_eq_some line p h
    refine ⟨hsep, ?_⟩
    obtain ⟨rest, hdec, -⟩ := splitEq_head_decomp line.data hsep
    exact ⟨rest, by rw [hp]; exact hdec⟩
  · decide

theorem parse_requires_separator_witness :
    hasEqEq ("foo==1.0" : String).data = true ∧
      ∃ rest, ("foo==1.0" : String).data = ("foo" : String).data ++ '=' :: '=' :: rest :=
  parse_requires_separator.1 "foo==1.0" "foo" (by decide)

/-- C10: the identifier parsed from a listing line is the piece before the
FIRST occurrence of `==` (the identifier itself contains no `==`), so a
line with several separators such as `a==b==1.0` yields `a`. -/
theorem parse_takes_first_separator :
    (∀ line p, parseLine line = some p →
      ∃ rest, line.data = p.data ++ '=' :: '=' :: rest ∧ hasEqEq p.data = false) ∧
    parseLine "a==b==1.0" = some "a" := by
  constructor
  · intro line p h
    obtain ⟨-, hsep, hp, -⟩ := parseLine_eq_some line p h
    obtain ⟨rest, hdec, hfree⟩ := splitEq_head_decomp line.data hsep
    exact ⟨rest, by rw [hp]; exact hdec, by rw [hp]; exact hfree⟩
  · decide

theorem parse_takes_first_separator_witness :
    ∃ rest, ("a==b==1.0" : String).data = ("a" : String).data ++ '=' :: '=' :: rest ∧
      hasEqEq ("a" : String).data = false :=
  parse_takes_first_separator.1 "a==b==1.0" "a" (by decide)

/-- C5 (counterexample): when the listing command exits non-zero, the run
does NOT emit an OutputLine describing the failure before Completed: the
only OutputLine of the whole run is the pre-failure fetching banner, whose
text says nothing about a failure. -/
theorem list_failure_counterexample :
    UninstallThread.run envListExitNonzero =
      [TaskEvent.outputLine "Fetching list of installed packages...\n",
       TaskEvent.progress 0 0,
       TaskEvent.completed false "Failed to get package list"] ∧
    (UninstallThread.run envListExitNonzero).filter (fun e => isOutputLine e) =
      [TaskEvent.outputLine "Fetching list of installed packages...\n"] ∧
    containsSub ("Fail" : String).data
      ("Fetching list of installed packages...\n" : String).data = false := by
  decide

/-- C5 (amended): when the listing command exits non-zero, the run emits
`Completed(success=false, "Failed to get package list")` directly after the
fetching banner — with no OutputLine describing the failure — and the
uninstall subprocess is never invoked. -/
theorem list_failure_stops_run (env : Env) (r : CmdResult)
    (h1 : env.listCmd = .ok r) (h2 : r.returncode ≠ 0) :
    UninstallThread.run env =
      listingBanner ++ [TaskEvent.completed false "Failed to get package list"] ∧
    UninstallThread.issuedPackages env = [] := by
  unfold UninstallThread.run UninstallThread.issuedPackages
  rw [UninstallThread.runFull_listFail env r h1 h2]
  exact ⟨rfl, rfl⟩

theorem list_failure_stops_run_witness :
    UninstallThread.run envListExitNonzero =
      listingBanner ++ [TaskEvent.completed false "Failed to get package list"] ∧
    UninstallThread.issuedPackages envListExitNonzero = [] :=
  list_failure_stops_run envListExitNonzero
    { returncode := 1, stdout := "", stderr := "boom" } rfl (by decide)

/-- C6: when the filtered identifier list is empty, the run emits
`Completed(success=true, "No packages to uninstall")` and stops: nothing is
ever passed to the uninstall subprocess and no failure is recorded. -/
theorem empty_list_completes_successfully (env : Env) (r : CmdResult)
    (h1 : env.listCmd = .ok r) (h2 : r.returncode = 0)
    (h3 : parsePackages r.stdout = []) :
    UninstallThread.run env =
      listingBanner ++ [TaskEvent.completed true "No packages to uninstall"] ∧
    UninstallThread.issuedPackages env = [] ∧
    UninstallThread.failedPackages env = [] := by
  unfold UninstallThread.run UninstallThread.issuedPackages UninstallThread.failedPackages
  rw [UninstallThread.runFull_empty env r h1 h2 h3]
  exact ⟨rfl, rfl, rfl⟩

theorem empty_list_completes_successfully_witness :
    UninstallThread.run envEmptyListing =
      listingBanner ++ [TaskEvent.completed true "No packages to uninstall"] ∧
    UninstallThread.issuedPackages envEmptyListing = [] ∧
    UninstallThread.failedPackages envEmptyListing = [] :=
  empty_list_completes_successfully envEmptyListing
    { returncode := 0, stdout := "", stderr := "" } rfl rfl (by decide)

/-- C7: when every uninstall subprocess completes (possibly with non-zero
exit), the loop attempts every parsed identifier in input order — a
per-item failure never aborts it — and the accumulated failure list is
exactly the identifiers whose uninstall command failed. -/
theorem removal_processes_all_in_order (env : Env) (r : CmdResult)
    (h1 : env.listCmd = .ok r) (h2 : r.returncode = 0)
    (hne : parsePackages r.stdout ≠ [])
    (hok : ∀ p ∈ parsePackages r.stdout, ∃ u, env.uninstallCmd p = .ok u) :
    UninstallThread.issuedPackages env = parsePackages r.stdout ∧
    UninstallThread.failedPackages env =
      (parsePackages r.stdout).filter (fun p => uninstallFails env p) := by
  have hloop := uninstallLoop_ok env (parsePackages r.stdout).length (parsePackages r.stdout) 1 hok
  unfold UninstallThread.issuedPackages UninstallThread.failedPackages
  rw [UninstallThread.runFull_loopOk env r h1 h2 hne _ _ _ hloop]
  exact ⟨rfl, rfl⟩

theorem removal_processes_all_in_order_witness :
    UninstallThread.issuedPackages envTwoPackages =
      parsePackages "foo==1.0\nbar==2.1\npip==23.0" ∧
    UninstallThread.failedPackages envTwoPackages =
      (parsePackages "foo==1.0\nbar==2.1\npip==23.0").filter
        (fun p => uninstallFails envTwoPackages p) :=
  removal_processes_all_in_order envTwoPackages
    { returncode := 0, stdout := "foo==1.0\nbar==2.1\npip==23.0", stderr := "" }
    rfl rfl (by decide) (fun p _ => ⟨_, rfl⟩)

/-- C8: when every uninstall subprocess completes, the run's event trace is
the fetching banner, the header block, and then — for item i of n, in input
order — exactly the block `itemEvents`: `Progress(i, n)` and the starting
OutputLine first, then the success OutputLine on zero exit, or the failure
OutputLine followed by the captured stderr text on non-zero exit; the
closing block follows. -/
theorem per_item_event_protocol (env : Env) (r : CmdResult)
    (h1 : env.listCmd = .ok r) (h2 : r.returncode = 0)
    (hne : parsePackages r.stdout ≠ [])
    (hok : ∀ p ∈ parsePackages r.stdout, ∃ u, env.uninstallCmd p = .ok u) :
    UninstallThread.run env =
      listingBanner ++ headerEvents (parsePackages r.stdout)
        ++ ((parsePackages r.stdout).enumFrom 1).flatMap
            (itemEvents env (parsePackages r.stdout).length)
        ++ closingEvents (parsePackages r.stdout).length
            ((parsePackages r.stdout).filter (fun p => uninstallFails env p)) := by
  have hloop := uninstallLoop_ok env (parsePackages r.stdout).length (parsePackages r.stdout) 1 hok
  unfold UninstallThread.run
  rw [UninstallThread.runFull_loopOk env r h1 h2 hne _ _ _ hloop]

theorem per_item_event_protocol_witness :
    UninstallThread.run envTwoPackages =
      listingBanner ++ headerEvents (parsePackages "foo==1.0\nbar==2.1\npip==23.0")
        ++ ((parsePackages "foo==1.0\nbar==2.1\npip==23.0").enumFrom 1).flatMap
            (itemEvents envTwoPackages (parsePackages "foo==1.0\nbar==2.1\npip==23.0").length)
        ++ closingEvents (parsePackages "foo==1.0\nbar==2.1\npip==23.0").length
            ((parsePackages "foo==1.0\nbar==2.1\npip==23.0").filter
              (fun p => uninstallFails envTwoPackages p)) :=
  per_item_event_protocol envTwoPackages
    { returncode := 0, stdout := "foo==1.0\nbar==2.1\npip==23.0", stderr := "" }
    rfl rfl (by decide) (fun p _ => ⟨_, rfl⟩)

/-- C4 (counterexample): with the single package `foo` failing (k = 1), the
Completed event's summary text is `"Failed to uninstall 1 packages"`, which
does not name the failed identifier `foo` — the claim that the summary
names exactly the k failed identifiers is false. -/
theorem completion_summary_counterexample :
    (UninstallThread.run envSingleFailure).getLast? =
      some (TaskEvent.completed false "Failed to uninstall 1 packages") ∧
    UninstallThread.failedPackages envSingleFailure = ["foo"] ∧
    containsSub ("foo" : String).data
      ("Failed to uninstall 1 packages" : String).data = false := by
  decide

/-- C4 (amended): for a run removing n identifiers of which k fail, the
Completed event carries success = (k = 0); when k > 0 its summary text
reports the count k, and the k failed identifiers are each named in an
OutputLine event emitted immediately before the Completed event. -/
theorem completion_summary (env : Env) (r : CmdResult)
    (h1 : env.listCmd = .ok r) (h2 : r.returncode = 0)
    (hne : parsePackages r.stdout ≠ [])
    (hok : ∀ p ∈ parsePackages r.stdout, ∃ u, env.uninstallCmd p = .ok u) :
    ∃ pre,
      (UninstallThread.failedPackages env = [] →
        UninstallThread.run env = pre ++
          [TaskEvent.completed true
            ("Successfully uninstalled " ++ toString (parsePackages r.stdout).length
              ++ " packages!")]) ∧
      (UninstallThread.failedPackages env ≠ [] →
        UninstallThread.run env = pre
          ++ (UninstallThread.failedPackages env).map
              (fun p => TaskEvent.outputLine ("  - " ++ p ++ "\n"))
          ++ [TaskEvent.completed false
              ("Failed to uninstall " ++ toString (UninstallThread.failedPackages env).length
                ++ " packages")]) := by
  have hloop := uninstallLoop_ok env (parsePackages r.stdout).length (parsePackages r.stdout) 1 hok
  have hrf := UninstallThread.runFull_loopOk env r h1 h2 hne _ _ _ hloop
  have hfp : UninstallThread.failedPackages env =
      (parsePackages r.stdout).filter (fun p => uninstallFails env p) := by
    unfold UninstallThread.failedPackages
    rw [hrf]
  have hrun : UninstallThread.run env =
      listingBanner ++ headerEvents (parsePackages r.stdout)
        ++ ((parsePackages r.stdout).enumFrom 1).flatMap
            (itemEvents env (parsePackages r.stdout).length)
        ++ closingEvents (parsePackages r.stdout).length
            ((parsePackages r.stdout).filter (fun p => uninstallFails env p)) := by
    unfold UninstallThread.run
    rw [hrf]
  by_cases hf : (parsePackages r.stdout).filter (fun p => uninstallFails env p) = []
  · refine ⟨listingBanner ++ headerEvents (parsePackages r.stdout)
      ++ ((parsePackages r.stdout).enumFrom 1).flatMap
          (itemEvents env (parsePackages r.stdout).length)
      ++ [TaskEvent.outputLine ("\n" ++ dashLine ++ "\n")], ?_, ?_⟩
    · intro _
      rw [hrun, hf]
      simp [closingEvents]
    · intro hne2
      rw [hfp] at hne2
      exact absurd hf hne2
  · refine ⟨listingBanner ++ headerEvents (parsePackages r.stdout)
      ++ ((parsePackages r.stdout).enumFrom 1).flatMap
          (itemEvents env (parsePackages r.stdout).length)
      ++ [TaskEvent.outputLine ("\n" ++ dashLine ++ "\n"),
          TaskEvent.outputLine ("\n⚠ Failed to uninstall "
            ++ toString ((parsePackages r.stdout).filter (fun p => uninstallFails env p)).length
            ++ " packages:\n")], ?_, ?_⟩
    · intro he
      rw [hfp] at he
      exact absurd he hf
    · intro _
      rw [hrun, hfp]
      simp [closingEvents, hf]

theorem completion_summary_witness :
    ∃ pre,
      (UninstallThread.failedPackages envTwoPackages = [] →
        UninstallThread.run envTwoPackages = pre ++
          [TaskEvent.completed true
            ("Successfully uninstalled "
              ++ toString (parsePackages "foo==1.0\nbar==2.1\npip==23.0").length
              ++ " packages!")]) ∧
      (UninstallThread.failedPackages envTwoPackages ≠ [] →
        UninstallThread.run envTwoPackages = pre
          ++ (UninstallThread.failedPackages envTwoPackages).map
              (fun p => TaskEvent.outputLine ("  - " ++ p ++ "\n"))
          ++ [TaskEvent.completed false
              ("Failed to uninstall "
                ++ toString (UninstallThread.failedPackages envTwoPackages).length
                ++ " packages")]) :=
  completion_summary envTwoPackages
    { returncode := 0, stdout := "foo==1.0\nbar==2.1\npip==23.0", stderr := "" }
    rfl rfl (by decide) (fun p _ => ⟨_, rfl⟩)

/-- C9: declining the confirmation dialog leaves the GUI state exactly as it
was — in particular still Idle with the log, buttons and progress bar
untouched — and starts no background run, so neither the listing nor any
uninstall subprocess is invoked. -/
theorem decline_confirmation_no_effects (s : PackageUninstallerGUI.GuiState) :
    PackageUninstallerGUI.confirm_uninstall s PackageUninstallerGUI.Reply.no = s ∧
    (PackageUninstallerGUI.confirm_uninstall s PackageUninstallerGUI.Reply.no).runsStarted
      = s.runsStarted := by
  constructor <;> simp [PackageUninstallerGUI.confirm_uninstall]
